import Mathlib

/-!
Shallow embedding of `src/api/api/endpoints/iam_endpoints.py`, a minimal
token-based identity and authorization core (authentication against a
hardcoded user map, JWT issuance and validation, permission-set
authorization), together with theorems settling the specification claims.

Modelling conventions:
* Machine time (Python `datetime.utcnow()`) is an injected `now : Nat`
  counted in seconds; `timedelta(minutes=m)` becomes `m * 60`.
* Python UUID values are modelled as their canonical lowercase string form;
  equality of UUIDs is string equality.
* Python dicts used as JWT payloads become association lists
  `List (String × ClaimValue)` with first-occurrence lookup, which matches
  dict semantics when keys are unique.
* The bcrypt handler (structural parse of an identified hash and the digest
  comparison) is cryptography outside the repository; it is abstracted as an
  oracle `bcrypt : String → String → Except VerifyError Bool` passed to the
  functions that hash — it may return the boolean match or raise (for
  example on an identified but structurally malformed hash). What IS
  modelled concretely is the passlib `CryptContext` dispatch around the
  handler: scheme identification by ident prefix, and raising
  UnknownHashError on unidentifiable hashes without consulting the
  handler.
* A Python function that can raise is embedded as `Except`; the raised
  exception is the `error` value.
* The module-level global `fake_users_db` read by `user_is_authenticated`
  is passed as an explicit `db` argument (the concrete `fake_users_db`
  below is the value the source binds it to).
-/

/-- HTTPException as raised by the endpoints: status code, detail string and
response headers. -/
structure HTTPError where
  status_code : Nat
  detail : String
  headers : List (String × String) := []
deriving DecidableEq, Repr

/-- Python ValueError (raised by `user_is_authorized_for_permission` when the
permission id is missing). -/
structure ValueError where
  message : String
deriving DecidableEq, Repr

/-- A JWT payload value: the payloads in this module hold the subject (a
string) and the expiry (a numeric timestamp). -/
inductive ClaimValue where
  | str (s : String)
  | nat (n : Nat)
deriving DecidableEq, Repr

/-- Pydantic model `UserInDB` (the `User` fields plus the stored hash).
`permissions` holds UUID values in canonical string form. -/
structure UserInDB where
  username : String
  email : Option String := none
  full_name : Option String := none
  disabled : Option Bool := none
  permissions : List String := []
  hashed_password : String
deriving DecidableEq, Repr

/-- The value returned on success by the inner `user_is_authorized` guard.
The Python source has `return User`, which returns the `User` CLASS object;
`userClass` models that type object, `userInstance` models returning an
actual principal instance. -/
inductive AuthorizedValue where
  | userClass
  | userInstance (u : UserInDB)
deriving DecidableEq, Repr

/-- Result of `authenticate_user`: the Python function returns `False` on
failure and the `UserInDB` instance on success. -/
inductive AuthResult where
  | failure
  | success (user : UserInDB)
deriving DecidableEq, Repr

/-- Exceptions the secret verifier can raise: UnknownHashError
(passlib.exc.UnknownHashError) when the stored hash cannot be identified as
any configured scheme, and the ValueError family the bcrypt handler raises
on a hash it identified but cannot parse (malformed cost field, bad salt or
checksum characters, and so on). -/
inductive VerifyError where
  | unknownHash
  | malformedHash
deriving DecidableEq, Repr

/-- Exceptions raised by `jose.jwt.decode`; all of them are (subclasses of)
`JWTError`, so the `except JWTError` handler in the source catches each. -/
inductive JWTError where
  | invalidSignature
  | expiredSignature
  | claimsError
deriving DecidableEq, Repr

/-- A token produced by `jwt.encode`: the signed form records the payload
and the key and algorithm that signed it (signature verification succeeds
exactly when decode is given the same key and an accepted algorithm);
`malformed` stands for any string that does not decode as a JWT at all. -/
inductive Token where
  | signed (payload : List (String × ClaimValue)) (key : String) (alg : String)
  | malformed (raw : String)
deriving DecidableEq, Repr

/-- Payload carried by a token (empty for a malformed blob). -/
def Token.payload : Token → List (String × ClaimValue)
  | .signed p _ _ => p
  | .malformed _ => []

/-- Response model of the `/token` route. -/
structure TokenResponse where
  access_token : Token
  token_type : String
deriving DecidableEq, Repr

/-- Modelled from the spec: `config.py` (module `config`) is not in the
repository; the spec describes `OAUTH_SECRET_KEY` as process-wide signing
key material loaded once at startup. Concrete placeholder value. -/
def OAUTH_SECRET_KEY : String := "process-wide-signing-key"

/-- Modelled from the spec: signing algorithm identifier from the missing
`config.py`; process-wide configuration loaded once at startup. -/
def OAUTH_JWT_ALGORITHM : String := "HS256"

/-- Modelled from the spec: access-token lifetime policy in minutes from the
missing `config.py`; the spec calls it a configured longer default. -/
def ACCESS_TOKEN_EXPIRE_MINUTES : Nat := 30

/-- The hardcoded in-memory user record for elvinv. -/
def user_elvinv : UserInDB :=
  { username := "elvinv"
    full_name := some "Elvin Voh"
    email := some "elvinv@example.com"
    hashed_password := "$2b$12$mNFOzbWeA9EIrTK0um5K7OlxYnRQcrB.5EtrlPFLbcRrHnF1XhPv2"
    disabled := some false
    permissions := ["b388caf0-baa3-4bd2-8e13-feb2fa7be097"] }

/-- The hardcoded in-memory user record for vivim (empty permission set). -/
def user_vivim : UserInDB :=
  { username := "vivim"
    full_name := some "Vivi Mo"
    email := some "vivim@example.com"
    hashed_password := "$2b$12$mNFOzbWeA9EIrTK0um5K7OlxYnRQcrB.5EtrlPFLbcRrHnF1XhPv2"
    disabled := some false
    permissions := [] }

/-- The module-level `fake_users_db` dict, keyed by username. -/
def fake_users_db : List (String × UserInDB) :=
  [("elvinv", user_elvinv), ("vivim", user_vivim)]

/-- The `InitiativePermissions` enum: one member, `Define`. -/
inductive InitiativePermissions where
  | Define
deriving DecidableEq, Repr

/-- UUID value of an `InitiativePermissions` member. -/
def InitiativePermissions.value : InitiativePermissions → String
  | .Define => "b388caf0-baa3-4bd2-8e13-feb2fa7be097"

/-- Dataclass `Permission`. -/
structure Permission where
  id : String
  name : String
deriving DecidableEq, Repr

/-- The module-level `permissions_db` list. -/
def permissions_db : List Permission :=
  [{ id := "b388caf0-baa3-4bd2-8e13-feb2fa7be097", name := "initiative.define" }]

/-- Passlib hash-format identification for `CryptContext(schemes=["bcrypt"])`:
the handler's `identify` is a prefix test of the stored hash against the
bcrypt ident values, which are `$2$` (legacy), `$2a$`, `$2x$`, `$2y$` and
`$2b$`. -/
def isBcryptHash (h : String) : Bool :=
  h.data.take 3 == ['$', '2', '$'] ||
    (let lead := h.data.take 4
     lead == ['$', '2', 'a', '$'] || lead == ['$', '2', 'x', '$'] ||
       lead == ['$', '2', 'y', '$'] || lead == ['$', '2', 'b', '$'])

/-- Model of `pwd_context.verify` for `CryptContext(schemes=["bcrypt"])`:
passlib first identifies the scheme of the stored hash; if the hash cannot
be identified it raises UnknownHashError (it does not return False);
otherwise it dispatches to the bcrypt handler — abstracted here by the
`bcrypt` oracle — whose own outcome (the boolean comparison result, or a
malformed-hash ValueError on an identified hash it cannot parse)
propagates unwrapped to the caller. -/
def CryptContext.verify (bcrypt : String → String → Except VerifyError Bool)
    (plain hashed : String) : Except VerifyError Bool :=
  if isBcryptHash hashed then bcrypt plain hashed else .error .unknownHash

/-- Source `verify_password`: delegates to `pwd_context.verify`. -/
def verify_password (bcrypt : String → String → Except VerifyError Bool)
    (plain_password hashed_password : String) : Except VerifyError Bool :=
  CryptContext.verify bcrypt plain_password hashed_password

/-- Source `get_user`: dict lookup returning `UserInDB(**user_dict)` when the
username is a key, and Python None otherwise. -/
def get_user (db : List (String × UserInDB)) (username : String) : Option UserInDB :=
  (db.find? (fun e => e.1 == username)).map (fun e => e.2)

/-- Source `authenticate_user`: look the username up; on a missing user
return False immediately; otherwise return False unless the password
verifies, in which case return the user. An exception from
`verify_password` propagates. -/
def authenticate_user (bcrypt : String → String → Except VerifyError Bool)
    (fake_db : List (String × UserInDB)) (username password : String) :
    Except VerifyError AuthResult :=
  match get_user fake_db username with
  | none => .ok .failure
  | some user =>
      match verify_password bcrypt password user.hashed_password with
      | .error e => .error e
      | .ok false => .ok .failure
      | .ok true => .ok (.success user)

/-- `authenticate_user` instrumented with its observable verification
behaviour: the second component lists, in order, the stored hashes passed
to `verify_password` during the call. The first component is exactly
`authenticate_user`. -/
def authenticate_user_calls (bcrypt : String → String → Except VerifyError Bool)
    (fake_db : List (String × UserInDB)) (username password : String) :
    Except VerifyError AuthResult × List String :=
  match get_user fake_db username with
  | none => (.ok .failure, [])
  | some user =>
      match verify_password bcrypt password user.hashed_password with
      | .error e => (.error e, [user.hashed_password])
      | .ok false => (.ok .failure, [user.hashed_password])
      | .ok true => (.ok (.success user), [user.hashed_password])

/-- First-occurrence association-list lookup, the model of `payload.get`. -/
def lookupClaim (d : List (String × ClaimValue)) (k : String) : Option ClaimValue :=
  (d.find? (fun e => e.1 == k)).map (fun e => e.2)

/-- Model of Python `dict.update({k: v})` on an association list: replace
the first binding of `k` in place, or append the binding at the end. -/
def dictUpdate : List (String × ClaimValue) → String → ClaimValue → List (String × ClaimValue)
  | [], k, v => [(k, v)]
  | e :: rest, k, v => if e.1 == k then (k, v) :: rest else e :: dictUpdate rest k v

/-- Python truthiness of the `expires_delta` argument: `None` is falsy and so
is `timedelta(0)`; every other duration is truthy. -/
def timedeltaTruthy : Option Nat → Bool
  | none => false
  | some d => d != 0

/-- Source `create_access_token`: copy the payload, compute the expiry as
now plus the delta when `if expires_delta:` is truthy and now plus
15 minutes otherwise, store it under "exp", and sign with the process-wide
key and algorithm. -/
def create_access_token (data : List (String × ClaimValue))
    (expires_delta : Option Nat) (now : Nat) : Token :=
  let expire : Nat :=
    if timedeltaTruthy expires_delta then now + expires_delta.getD 0
    else now + 15 * 60
  Token.signed (dictUpdate data "exp" (.nat expire)) OAUTH_SECRET_KEY OAUTH_JWT_ALGORITHM

/-- Model of `jose.jwt.decode`: a malformed blob or a signature made with a
different key or an unaccepted algorithm raises JWTError; an integer "exp"
claim strictly in the past raises ExpiredSignatureError; a non-integer
"exp" raises JWTClaimsError; otherwise the payload is returned. -/
def jwt_decode (token : Token) (key : String) (algorithms : List String)
    (now : Nat) : Except JWTError (List (String × ClaimValue)) :=
  match token with
  | .malformed _ => .error .invalidSignature
  | .signed payload k a =>
      if k == key && algorithms.contains a then
        match lookupClaim payload "exp" with
        | some (.nat e) => if e < now then .error .expiredSignature else .ok payload
        | some (.str _) => .error .claimsError
        | none => .ok payload
      else .error .invalidSignature

/-- The `credentials_exception` built at the top of `user_is_authenticated`. -/
def credentials_exception : HTTPError :=
  { status_code := 401
    detail := "Could not validate credentials"
    headers := [("WWW-Authenticate", "Bearer")] }

/-- Source `user_is_authenticated`: decode the token (any JWTError is caught
and replaced by `credentials_exception`), read the "sub" claim (raising
`credentials_exception` when it is None, or when it is an integer, which
can never equal a string dict key), resolve the username in the user db
(raising `credentials_exception` when absent), and return the user. -/
def user_is_authenticated (db : List (String × UserInDB)) (token : Token)
    (now : Nat) : Except HTTPError UserInDB :=
  match jwt_decode token OAUTH_SECRET_KEY [OAUTH_JWT_ALGORITHM] now with
  | .error _ => .error credentials_exception
  | .ok payload =>
      match lookupClaim payload "sub" with
      | none => .error credentials_exception
      | some (.nat _) => .error credentials_exception
      | some (.str username) =>
          match get_user db username with
          | none => .error credentials_exception
          | some user => .ok user

/-- The inner `user_is_authorized` guard applied to the principal resolved by
its `Depends(user_is_authenticated)` parameter: raise 403 unless some held
permission equals the required id; on success execute `return User`, which
yields the class object. -/
def user_is_authorized (permission_id : String) (user : UserInDB) :
    Except HTTPError AuthorizedValue :=
  if !(user.permissions.any fun permission => permission == permission_id) then
    .error { status_code := 403, detail := "User does not have access." }
  else
    .ok .userClass

/-- Source `user_is_authorized_for_permission`: at guard-construction time a
missing permission id raises ValueError; otherwise the inner guard closure
is returned. -/
def user_is_authorized_for_permission (permission_id : Option String) :
    Except ValueError (UserInDB → Except HTTPError AuthorizedValue) :=
  match permission_id with
  | none => .error { message := "Missing Permission." }
  | some pid => .ok (user_is_authorized pid)

/-- The FastAPI dependency chain behind a route guarded by
`user_is_authorized_for_permission`: the inner guard depends directly on
`user_is_authenticated` (not on `get_current_active_user`), so the resolved
principal flows straight into the permission check. -/
def authorization_pipeline (permission_id : String)
    (db : List (String × UserInDB)) (token : Token) (now : Nat) :
    Except HTTPError AuthorizedValue :=
  match user_is_authenticated db token now with
  | .error e => .error e
  | .ok user => user_is_authorized permission_id user

/-- Source `get_current_active_user`: resolve the principal via
`user_is_authenticated`, then raise 400 when the disabled flag is truthy
(None counts as falsy). -/
def get_current_active_user (db : List (String × UserInDB)) (token : Token)
    (now : Nat) : Except HTTPError UserInDB :=
  match user_is_authenticated db token now with
  | .error e => .error e
  | .ok current_user =>
      if current_user.disabled.getD false then
        .error { status_code := 400, detail := "Inactive user" }
      else
        .ok current_user

/-- Source `login_for_access_token`: authenticate against `fake_users_db`;
a falsy result raises 401 "Incorrect username or password"; an exception
escaping `authenticate_user` surfaces as a generic server error; on success
issue a token for the username with the configured access-token lifetime. -/
def login_for_access_token (bcrypt : String → String → Except VerifyError Bool) (now : Nat)
    (username password : String) : Except HTTPError TokenResponse :=
  match authenticate_user bcrypt fake_users_db username password with
  | .error _ => .error { status_code := 500, detail := "Internal Server Error" }
  | .ok .failure =>
      .error { status_code := 401
               detail := "Incorrect username or password"
               headers := [("WWW-Authenticate", "Bearer")] }
  | .ok (.success user) =>
      .ok { access_token :=
              create_access_token [("sub", .str user.username)]
                (some (ACCESS_TOKEN_EXPIRE_MINUTES * 60)) now
            token_type := "bearer" }

/-! ## Helper lemmas -/

/-- The instrumented authenticator computes the same result as the plain one. -/
theorem authenticate_user_calls_fst (bcrypt : String → String → Except VerifyError Bool)
    (fake_db : List (String × UserInDB)) (username password : String) :
    (authenticate_user_calls bcrypt fake_db username password).1 =
      authenticate_user bcrypt fake_db username password := by
  unfold authenticate_user_calls authenticate_user
  cases get_user fake_db username with
  | none => rfl
  | some user =>
      cases h : verify_password bcrypt password user.hashed_password with
      | error e => simp [h]
      | ok b => cases b <;> simp [h]

/-- Updating a key and then looking it up returns the new value. -/
theorem lookupClaim_dictUpdate (d : List (String × ClaimValue)) (k : String)
    (v : ClaimValue) : lookupClaim (dictUpdate d k v) k = some v := by
  induction d with
  | nil => simp [dictUpdate, lookupClaim, List.find?]
  | cons e rest ih =>
      cases h : e.1 == k with
      | true => simp [dictUpdate, h, lookupClaim, List.find?]
      | false =>
          simp only [dictUpdate, h, Bool.false_eq_true, if_false]
          simpa [lookupClaim, List.find?, h] using ih

/-! ## C1 -/

/-- C1 counterexample: on an unknown username the authenticator performs no
verification call at all, while a known username with a wrong password
produces one verification call, so the two call sequences differ. -/
theorem c1_unknown_username_short_circuits :
    (authenticate_user_calls (fun _ _ => Except.ok false) fake_users_db "mallory" "pw").2 = [] ∧
    (authenticate_user_calls (fun _ _ => Except.ok false) fake_users_db "elvinv" "pw").2 =
      ["$2b$12$mNFOzbWeA9EIrTK0um5K7OlxYnRQcrB.5EtrlPFLbcRrHnF1XhPv2"] ∧
    (authenticate_user_calls (fun _ _ => Except.ok false) fake_users_db "mallory" "pw").2 ≠
      (authenticate_user_calls (fun _ _ => Except.ok false) fake_users_db "elvinv" "pw").2 :=
  ⟨rfl, rfl, by decide⟩

/-- C1 amended: for a username absent from the credential store,
`authenticate_user` rejects immediately and performs no secret-verification
call (it short-circuits, with no dummy-hash call). -/
theorem c1_no_dummy_verification (bcrypt : String → String → Except VerifyError Bool)
    (username password : String)
    (h : get_user fake_users_db username = none) :
    authenticate_user_calls bcrypt fake_users_db username password =
      (Except.ok AuthResult.failure, []) := by
  unfold authenticate_user_calls
  rw [h]

/-- C1 witness: the unknown username mallory is rejected with an empty
verification-call sequence. -/
theorem c1_no_dummy_verification_witness :
    authenticate_user_calls (fun _ _ => Except.ok false) fake_users_db "mallory" "pw" =
      (Except.ok AuthResult.failure, []) :=
  c1_no_dummy_verification (fun _ _ => Except.ok false) "mallory" "pw" rfl

/-! ## C2 -/

/-- C2 counterexample: four distinct failure causes (malformed token, missing
subject claim, expired token, unknown subject) all produce the identical
rejection `credentials_exception`, so the reasons are not distinguishable. -/
theorem c2_reasons_not_distinct :
    user_is_authenticated fake_users_db (.malformed "tampered") 0 =
      .error credentials_exception ∧
    user_is_authenticated fake_users_db
      (.signed [("exp", .nat 100)] OAUTH_SECRET_KEY OAUTH_JWT_ALGORITHM) 0 =
      .error credentials_exception ∧
    user_is_authenticated fake_users_db
      (.signed [("sub", .str "elvinv"), ("exp", .nat 100)]
        OAUTH_SECRET_KEY OAUTH_JWT_ALGORITHM) 200 =
      .error credentials_exception ∧
    user_is_authenticated fake_users_db
      (.signed [("sub", .str "ghost"), ("exp", .nat 100)]
        OAUTH_SECRET_KEY OAUTH_JWT_ALGORITHM) 0 =
      .error credentials_exception :=
  ⟨rfl, rfl, rfl, rfl⟩

/-- C2 amended: every rejection of `user_is_authenticated`, whatever the
failing step, is the single exception `credentials_exception`
(401, "Could not validate credentials"). -/
theorem c2_uniform_rejection (db : List (String × UserInDB)) (token : Token)
    (now : Nat) (e : HTTPError)
    (h : user_is_authenticated db token now = .error e) :
    e = credentials_exception := by
  unfold user_is_authenticated at h
  split at h
  · injection h with h; exact h.symm
  · split at h
    · injection h with h; exact h.symm
    · injection h with h; exact h.symm
    · split at h
      · injection h with h; exact h.symm
      · simp at h

/-- C2 witness: a malformed token is rejected with `credentials_exception`. -/
theorem c2_uniform_rejection_witness : credentials_exception = credentials_exception :=
  c2_uniform_rejection fake_users_db (Token.malformed "tampered") 0
    credentials_exception rfl

/-! ## C3 -/

/-- C3: for the stored user elvinv, who holds the required permission, the
successful `user_is_authorized` guard returns the `User` class object
(`return User` in the source), not the authenticated principal instance. -/
theorem c3_returns_class_object :
    user_is_authorized "b388caf0-baa3-4bd2-8e13-feb2fa7be097" user_elvinv =
      Except.ok AuthorizedValue.userClass ∧
    user_is_authorized "b388caf0-baa3-4bd2-8e13-feb2fa7be097" user_elvinv ≠
      Except.ok (AuthorizedValue.userInstance user_elvinv) :=
  ⟨rfl, fun h => AuthorizedValue.noConfusion (Except.ok.inj h)⟩

/-! ## C4 -/

/-- A store snapshot holding a disabled identity, used to exercise the
authorization pipeline on a disabled principal. -/
def user_dana : UserInDB :=
  { username := "dana"
    disabled := some true
    permissions := ["b388caf0-baa3-4bd2-8e13-feb2fa7be097"]
    hashed_password := "$2b$12$mNFOzbWeA9EIrTK0um5K7OlxYnRQcrB.5EtrlPFLbcRrHnF1XhPv2" }

/-- A credential store in which dana is the (disabled) stored identity. -/
def disabled_user_db : List (String × UserInDB) := [("dana", user_dana)]

/-- A well-signed, unexpired token for dana. -/
def dana_token : Token :=
  .signed [("sub", .str "dana"), ("exp", .nat 1000)] OAUTH_SECRET_KEY OAUTH_JWT_ALGORITHM

/-- C4 counterexample: with a disabled identity in the store, the
authorization pipeline does not deny before the permission check: the
permission check runs and the request is allowed, even though the
active-flag check of `get_current_active_user` (not part of this chain)
would have rejected the same principal. -/
theorem c4_disabled_reaches_permission_check :
    user_dana.disabled = some true ∧
    authorization_pipeline "b388caf0-baa3-4bd2-8e13-feb2fa7be097"
      disabled_user_db dana_token 0 = Except.ok AuthorizedValue.userClass ∧
    get_current_active_user disabled_user_db dana_token 0 =
      Except.error { status_code := 400, detail := "Inactive user" } :=
  ⟨rfl, rfl, rfl⟩

/-- C4 amended: the authorization pipeline applies the permission check to
every principal that `user_is_authenticated` resolves, with no active-flag
gate in between; the disabled check lives only in `get_current_active_user`,
which is not part of the permission-guard dependency chain. -/
theorem c4_pipeline_has_no_active_check (permission_id : String)
    (db : List (String × UserInDB)) (token : Token) (now : Nat) (user : UserInDB)
    (h : user_is_authenticated db token now = .ok user) :
    authorization_pipeline permission_id db token now =
      user_is_authorized permission_id user ∧
    (user.disabled = some true →
      get_current_active_user db token now =
        Except.error { status_code := 400, detail := "Inactive user" }) := by
  constructor
  · unfold authorization_pipeline
    rw [h]
  · intro hdis
    unfold get_current_active_user
    rw [h]
    simp [hdis]

/-- C4 witness: the disabled principal dana flows into the permission check
of the pipeline, while `get_current_active_user` rejects her. -/
theorem c4_pipeline_has_no_active_check_witness :
    authorization_pipeline "b388caf0-baa3-4bd2-8e13-feb2fa7be097"
      disabled_user_db dana_token 0 =
      user_is_authorized "b388caf0-baa3-4bd2-8e13-feb2fa7be097" user_dana ∧
    (user_dana.disabled = some true →
      get_current_active_user disabled_user_db dana_token 0 =
        Except.error { status_code := 400, detail := "Inactive user" }) :=
  c4_pipeline_has_no_active_check "b388caf0-baa3-4bd2-8e13-feb2fa7be097"
    disabled_user_db dana_token 0 user_dana rfl

/-! ## C5 -/

/-- C5: the authorization decision is allow exactly when the requested
permission id is a member of the principal permission set (exact identifier
equality), and an empty permission set is always denied with the 403
rejection, whatever permission is requested. -/
theorem c5_allow_iff_membership (user : UserInDB) (permission_id : String) :
    (user_is_authorized permission_id user = Except.ok AuthorizedValue.userClass ↔
      permission_id ∈ user.permissions) ∧
    (user.permissions = [] →
      user_is_authorized permission_id user =
        Except.error { status_code := 403, detail := "User does not have access." }) := by
  constructor
  · cases hany : user.permissions.any (fun permission => permission == permission_id) with
    | false =>
        constructor
        · intro h
          unfold user_is_authorized at h
          rw [hany] at h
          simp at h
        · intro hmem
          exfalso
          have : (user.permissions.any fun permission => permission == permission_id) = true :=
            List.any_eq_true.mpr ⟨permission_id, hmem, beq_self_eq_true permission_id⟩
          rw [hany] at this
          exact Bool.false_ne_true this
    | true =>
        constructor
        · intro _
          rcases List.any_eq_true.mp hany with ⟨x, hx, hbeq⟩
          exact eq_of_beq hbeq ▸ hx
        · intro _
          unfold user_is_authorized
          rw [hany]
          rfl
  · intro hnil
    unfold user_is_authorized
    rw [hnil]
    rfl

/-- C5 witness: vivim has the empty permission set and is denied the Define
permission with the 403 rejection. -/
theorem c5_allow_iff_membership_witness :
    user_is_authorized "b388caf0-baa3-4bd2-8e13-feb2fa7be097" user_vivim =
      Except.error { status_code := 403, detail := "User does not have access." } :=
  (c5_allow_iff_membership user_vivim "b388caf0-baa3-4bd2-8e13-feb2fa7be097").2 rfl

/-! ## C6 -/

/-- C6: an unknown username and a wrong password on a known username yield
the same caller-visible rejection from the login endpoint: the identical
401 response with detail "Incorrect username or password". -/
theorem c6_indistinguishable_rejection (bcrypt : String → String → Except VerifyError Bool)
    (now : Nat) (u₁ p₁ u₂ p₂ : String)
    (h₁ : get_user fake_users_db u₁ = none)
    (h₂ : ∃ user, get_user fake_users_db u₂ = some user ∧
            verify_password bcrypt p₂ user.hashed_password = Except.ok false) :
    login_for_access_token bcrypt now u₁ p₁ =
      Except.error { status_code := 401
                     detail := "Incorrect username or password"
                     headers := [("WWW-Authenticate", "Bearer")] } ∧
    login_for_access_token bcrypt now u₂ p₂ =
      login_for_access_token bcrypt now u₁ p₁ := by
  obtain ⟨user, hu, hv⟩ := h₂
  have a₁ : authenticate_user bcrypt fake_users_db u₁ p₁ = .ok .failure := by
    unfold authenticate_user
    rw [h₁]
  have a₂ : authenticate_user bcrypt fake_users_db u₂ p₂ = .ok .failure := by
    unfold authenticate_user
    rw [hu]
    simp [hv]
  constructor
  · unfold login_for_access_token
    rw [a₁]
  · unfold login_for_access_token
    rw [a₁, a₂]

/-- C6 witness: the unknown username mallory and the known username elvinv
with a non-matching password receive the identical 401 rejection. -/
theorem c6_indistinguishable_rejection_witness :
    login_for_access_token (fun _ _ => Except.ok false) 0 "mallory" "pw" =
      Except.error { status_code := 401
                     detail := "Incorrect username or password"
                     headers := [("WWW-Authenticate", "Bearer")] } ∧
    login_for_access_token (fun _ _ => Except.ok false) 0 "elvinv" "pw" =
      login_for_access_token (fun _ _ => Except.ok false) 0 "mallory" "pw" :=
  c6_indistinguishable_rejection (fun _ _ => Except.ok false) 0 "mallory" "pw" "elvinv" "pw"
    rfl ⟨user_elvinv, rfl, rfl⟩

/-! ## C7 -/

/-- C7 counterexample: on the malformed stored hash "notahash" the secret
verifier raises UnknownHashError instead of returning false. -/
theorem c7_malformed_hash_raises :
    verify_password (fun _ _ => Except.ok false) "password" "notahash" =
      Except.error VerifyError.unknownHash ∧
    verify_password (fun _ _ => Except.ok false) "password" "notahash" ≠
      Except.ok false :=
  ⟨rfl, fun h => Except.noConfusion h⟩

/-- C7 amended: on every stored hash that passlib cannot identify as bcrypt,
`verify_password` raises UnknownHashError to its caller (it does not return
false); false is returned only for recognised hashes that fail to match. -/
theorem c7_malformed_hash_error (bcrypt : String → String → Except VerifyError Bool)
    (plain hashed : String) (h : isBcryptHash hashed = false) :
    verify_password bcrypt plain hashed = Except.error VerifyError.unknownHash := by
  unfold verify_password CryptContext.verify
  rw [h]
  rfl

/-- C7 witness: the unidentifiable hash "notahash" makes the verifier raise. -/
theorem c7_malformed_hash_error_witness :
    verify_password (fun _ _ => Except.ok true) "password" "notahash" =
      Except.error VerifyError.unknownHash :=
  c7_malformed_hash_error (fun _ _ => Except.ok true) "password" "notahash" rfl

/-! ## C8 -/

/-- C8 counterexample: a supplied time-to-live of zero does not produce
expiry = issuance + ttl; because `if expires_delta:` tests Python
truthiness and a zero timedelta is falsy, the token issued at time 5 with
ttl 0 expires at 905 (the 15-minute default), not at 5. -/
theorem c8_zero_ttl_uses_default :
    lookupClaim (Token.payload
        (create_access_token [("sub", ClaimValue.str "elvinv")] (some 0) 5)) "exp" =
      some (ClaimValue.nat 905) ∧
    (905 : Nat) ≠ 5 + 0 :=
  ⟨rfl, by decide⟩

/-- C8 amended: for every truthy (nonzero) supplied ttl the token expiry is
issuance time + ttl, and when no ttl is supplied the default of 15 minutes
is used (a zero ttl also falls back to the default, by Python truthiness). -/
theorem c8_expiry_policy (data : List (String × ClaimValue))
    (expires_delta : Option Nat) (now : Nat) :
    (∀ d, expires_delta = some d → d ≠ 0 →
      lookupClaim (Token.payload (create_access_token data expires_delta now)) "exp" =
        some (ClaimValue.nat (now + d))) ∧
    (expires_delta = none →
      lookupClaim (Token.payload (create_access_token data expires_delta now)) "exp" =
        some (ClaimValue.nat (now + 15 * 60))) := by
  constructor
  · intro d hd hd0
    subst hd
    unfold create_access_token
    simp only [Token.payload, timedeltaTruthy, bne_iff_ne, ne_eq, hd0,
      not_false_eq_true, if_true, Option.getD_some]
    exact lookupClaim_dictUpdate data "exp" (ClaimValue.nat (now + d))
  · intro hnone
    subst hnone
    unfold create_access_token
    simp only [Token.payload, timedeltaTruthy, Bool.false_eq_true, if_false]
    exact lookupClaim_dictUpdate data "exp" (ClaimValue.nat (now + 15 * 60))

/-- C8 witness: a 30-minute ttl issued at time 7 expires at 7 + 1800, and an
absent ttl issued at time 7 expires at 7 + 900. -/
theorem c8_expiry_policy_witness :
    lookupClaim (Token.payload
        (create_access_token [("sub", ClaimValue.str "elvinv")] (some 1800) 7)) "exp" =
      some (ClaimValue.nat (7 + 1800)) ∧
    lookupClaim (Token.payload
        (create_access_token [("sub", ClaimValue.str "elvinv")] none 7)) "exp" =
      some (ClaimValue.nat (7 + 15 * 60)) :=
  ⟨(c8_expiry_policy [("sub", ClaimValue.str "elvinv")] (some 1800) 7).1 1800 rfl
      (by decide),
    (c8_expiry_policy [("sub", ClaimValue.str "elvinv")] none 7).2 rfl⟩

/-! ## C9 -/

/-- C9 counterexample: the token issued by a real login carries no issued-at
claim: its payload is exactly the subject and the expiry, and looking up
"iat" yields nothing. -/
theorem c9_no_issued_at_claim :
    login_for_access_token (fun _ _ => Except.ok true) 1000 "elvinv" "pw" =
      Except.ok { access_token :=
                    create_access_token [("sub", ClaimValue.str "elvinv")]
                      (some (ACCESS_TOKEN_EXPIRE_MINUTES * 60)) 1000
                  token_type := "bearer" } ∧
    lookupClaim (Token.payload
        (create_access_token [("sub", ClaimValue.str "elvinv")]
          (some (ACCESS_TOKEN_EXPIRE_MINUTES * 60)) 1000)) "iat" = none :=
  ⟨rfl, rfl⟩

/-- C9 amended: every token produced by a successful login encodes in its
payload the subject (the authenticated username) and the expiry timestamp
(issuance time plus the access-token policy), and no issued-at claim. -/
theorem c9_payload_contents (bcrypt : String → String → Except VerifyError Bool) (now : Nat)
    (username password : String) (resp : TokenResponse)
    (h : login_for_access_token bcrypt now username password = Except.ok resp) :
    ∃ user, authenticate_user bcrypt fake_users_db username password =
        Except.ok (AuthResult.success user) ∧
      lookupClaim resp.access_token.payload "sub" =
        some (ClaimValue.str user.username) ∧
      lookupClaim resp.access_token.payload "exp" =
        some (ClaimValue.nat (now + ACCESS_TOKEN_EXPIRE_MINUTES * 60)) ∧
      lookupClaim resp.access_token.payload "iat" = none := by
  unfold login_for_access_token at h
  cases ha : authenticate_user bcrypt fake_users_db username password with
  | error e =>
      rw [ha] at h
      simp at h
  | ok r =>
      cases r with
      | failure =>
          rw [ha] at h
          simp at h
      | success user =>
          rw [ha] at h
          simp only [Except.ok.injEq] at h
          subst h
          exact ⟨user, rfl, rfl, rfl, rfl⟩

/-- C9 witness: the login of elvinv at time 1000 produces a token whose
payload holds the subject elvinv, the expiry 1000 + 1800, and no issued-at
claim. -/
theorem c9_payload_contents_witness :
    ∃ user, authenticate_user (fun _ _ => Except.ok true) fake_users_db "elvinv" "pw" =
        Except.ok (AuthResult.success user) ∧
      lookupClaim (TokenResponse.access_token
          { access_token :=
              create_access_token [("sub", ClaimValue.str "elvinv")]
                (some (ACCESS_TOKEN_EXPIRE_MINUTES * 60)) 1000
            token_type := "bearer" }).payload "sub" =
        some (ClaimValue.str user.username) ∧
      lookupClaim (TokenResponse.access_token
          { access_token :=
              create_access_token [("sub", ClaimValue.str "elvinv")]
                (some (ACCESS_TOKEN_EXPIRE_MINUTES * 60)) 1000
            token_type := "bearer" }).payload "exp" =
        some (ClaimValue.nat (1000 + ACCESS_TOKEN_EXPIRE_MINUTES * 60)) ∧
      lookupClaim (TokenResponse.access_token
          { access_token :=
              create_access_token [("sub", ClaimValue.str "elvinv")]
                (some (ACCESS_TOKEN_EXPIRE_MINUTES * 60)) 1000
            token_type := "bearer" }).payload "iat" = none :=
  c9_payload_contents (fun _ _ => Except.ok true) 1000 "elvinv" "pw"
    { access_token :=
        create_access_token [("sub", ClaimValue.str "elvinv")]
          (some (ACCESS_TOKEN_EXPIRE_MINUTES * 60)) 1000
      token_type := "bearer" } rfl

/-! ## C10 -/

/-- C10: constructing the permission guard with a missing permission id
raises ValueError "Missing Permission." immediately, before any request
handling, while any present permission id constructs the inner guard
without raising. -/
theorem c10_construction_guard :
    user_is_authorized_for_permission none =
      Except.error { message := "Missing Permission." } ∧
    ∀ pid : String, user_is_authorized_for_permission (some pid) =
      Except.ok (user_is_authorized pid) :=
  ⟨rfl, fun _ => rfl⟩
